import Mathlib

/-!
Shallow embedding of the robot-control repository (ProyectoControlRobot):
the PLC protocol client (`src/core/plc_controller.py`) and the dual-camera
vision processor (`src/core/vision_processor_prueba.py`), together with
theorems settling the spec claims about them.

Conventions of the embedding:
* Python `int` is `ℤ`, Python `float` arithmetic is modelled exactly on `ℚ`.
* `int(x)` on a float is truncation toward zero (`pyInt`); `round(x)` is
  round-half-to-even (`pyRound`), as in Python 3.
* Pixel bounding-box coordinates coming from the detection model are
  modelled as natural numbers; a detection carries its class name and box.
* The YOLO models are external collaborators: an inference call is modelled
  by handing the resulting detection list directly to the embedded function.
* PLC register I/O is modelled by a failure plan `plan : ℕ → Bool` telling
  which `batchwrite_wordunits` call (0-indexed within one
  `escribir_resultados` call) raises; performed writes are recorded as
  `WriteEvent`s in order.
-/

namespace ControlRobot

/-! ### Python numeric helpers -/

/-- Python `int(q)` on a float: truncation toward zero. -/
def pyInt (q : ℚ) : ℤ := if 0 ≤ q then ⌊q⌋ else ⌈q⌉

/-- Python 3 `round(q)` with no digits: round half to even. -/
def pyRound (q : ℚ) : ℤ :=
  let f := ⌊q⌋
  let r := q - (f : ℚ)
  if r < 1/2 then f
  else if (1:ℚ)/2 < r then f + 1
  else if f % 2 = 0 then f else f + 1

/-- Python truthiness of an optional int (`None` and `0` are falsy). -/
def pyTruthy : Option ℤ → Bool
  | none => false
  | some n => n ≠ 0

/-! ### PLC configuration (`plc_controller.py`, `_cargar_configuracion` /
`_configuracion_por_defecto`) -/

structure PLCConfig where
  ip_plc : String
  puerto_plc : ℕ
  dispositivo_trigger : String
  dispositivo_valor : String
  dispositivo_filas : String
  valor_solicitud : ℤ
  valor_exito : ℤ
  valor_error : ℤ
deriving DecidableEq

/-- `_configuracion_por_defecto`: the hard-coded fallback configuration. -/
def configuracion_por_defecto : PLCConfig :=
  { ip_plc := "192.168.100.120"
    puerto_plc := 5007
    dispositivo_trigger := "D28"
    dispositivo_valor := "D29"
    dispositivo_filas := "D14"
    valor_solicitud := 99
    valor_exito := 88
    valor_error := 77 }

/-- The three outcomes of opening and parsing the JSON config file:
the file is absent, it is present but unparseable, or it parses to `c`. -/
inductive ConfigFile where
  | missing
  | invalid
  | valid (c : PLCConfig)

/-- `_cargar_configuracion`: `FileNotFoundError` falls back to the default
configuration; `json.JSONDecodeError` re-raises (modelled as `.error`);
otherwise the parsed configuration is returned. -/
def cargar_configuracion : ConfigFile → Except String PLCConfig
  | .missing => .ok configuracion_por_defecto
  | .invalid => .error "JSONDecodeError"
  | .valid c => .ok c

/-! ### Codec (`_int32_to_words`) -/

/-- `_int32_to_words`: clamp to int32, two's complement to unsigned,
split into `[low_word, high_word]`.  On the non-negative clamped value,
the source's `& 0xFFFF` is `% 65536` and `>> 16` is `/ 65536`. -/
def int32_to_words (n : ℤ) : List ℤ :=
  let n1 := max (-2147483648) (min n 2147483647)
  let n2 := if n1 < 0 then n1 + 4294967296 else n1
  [n2 % 65536, (n2 / 65536) % 65536]

/-! ### PLC controller state and `escribir_resultados` -/

/-- One `batchwrite_wordunits(headdevice, values)` call that was performed. -/
structure WriteEvent where
  headdevice : String
  values : List ℤ
deriving DecidableEq

structure PLCController where
  config : PLCConfig
  is_connected : Bool
deriving DecidableEq

/-- Result of one `escribir_resultados` call: the controller state after the
call, the register writes that were performed (in order), and the returned
boolean. -/
structure WriteOutcome where
  ctrl : PLCController
  events : List WriteEvent
  ret : Bool
deriving DecidableEq

/-- The three writes `escribir_resultados` issues, in program order:
value register (two words), row-count register, trigger register.
On `exito = false` the source sends zeros and the error code. -/
def escrituras_programadas (ctrl : PLCController)
    (desviacion_mm : ℚ) (num_filas : ℤ) (exito : Bool) : List WriteEvent :=
  if exito then
    let valor_desviacion := pyRound (desviacion_mm * 100)
    let palabras_valor := int32_to_words valor_desviacion
    let valor_filas := max 0 num_filas
    [⟨ctrl.config.dispositivo_valor, palabras_valor⟩,
     ⟨ctrl.config.dispositivo_filas, [valor_filas]⟩,
     ⟨ctrl.config.dispositivo_trigger, [ctrl.config.valor_exito]⟩]
  else
    [⟨ctrl.config.dispositivo_valor, int32_to_words 0⟩,
     ⟨ctrl.config.dispositivo_filas, [(0 : ℤ)]⟩,
     ⟨ctrl.config.dispositivo_trigger, [ctrl.config.valor_error]⟩]

/-- Run scheduled writes in order against the failure plan; a raising write
records nothing and aborts the rest (the `try` block is exited). -/
def ejecutar_escrituras (plan : ℕ → Bool) :
    List WriteEvent → ℕ → List WriteEvent × Bool
  | [], _ => ([], true)
  | w :: ws, i =>
    if plan i then ([], false)
    else
      let r := ejecutar_escrituras plan ws (i + 1)
      (w :: r.1, r.2)

/-- `escribir_resultados`: refuse when disconnected; otherwise perform the
three writes in order inside a `try`; any raised write sets
`is_connected = False` and returns `False`. -/
def escribir_resultados (ctrl : PLCController) (plan : ℕ → Bool)
    (desviacion_mm : ℚ) (num_filas : ℤ) (exito : Bool) : WriteOutcome :=
  if ctrl.is_connected = false then
    ⟨ctrl, [], false⟩
  else
    let prog := escrituras_programadas ctrl desviacion_mm num_filas exito
    let r := ejecutar_escrituras plan prog 0
    if r.2 then ⟨ctrl, r.1, true⟩
    else ⟨{ ctrl with is_connected := false }, r.1, false⟩

/-! ### Vision data model (`vision_processor_prueba.py`) -/

/-- One YOLO detection: class name and axis-aligned pixel bounding box. -/
structure Detection where
  cls : String
  x1 : ℕ
  y1 : ℕ
  x2 : ℕ
  y2 : ℕ
deriving DecidableEq

/-- `int((box.xyxy[0][0] + box.xyxy[0][2]) / 2)` on integer pixel coords. -/
def x_center (d : Detection) : ℕ := (d.x1 + d.x2) / 2

/-- `int((box.xyxy[0][1] + box.xyxy[0][3]) / 2)` on integer pixel coords. -/
def y_center (d : Detection) : ℕ := (d.y1 + d.y2) / 2

/-- The `vision` slice of the configuration dictionary, with the defaults
of `VisionProcessor.__init__`. -/
structure VisionConfig where
  mm_per_pixel : ℚ
  clases_fallo_superior : List String
  clase_posicion : String
  clase_vacio : String
  total_posiciones : ℕ
  tolerancia_columna_px : ℤ
  correccion_y_fija_px : ℤ
  clases_anomalia_lateral : List String
  clase_referencia : String
  clase_borde_env : String
  clase_mitad_env : String
  d_real_mm : ℚ
  offset_cero_px : ℤ
deriving DecidableEq

/-- The configuration defaults from `VisionProcessor.__init__`. -/
def configVisionPorDefecto : VisionConfig :=
  { mm_per_pixel := 1/2
    clases_fallo_superior := ["error_apilado", "error_alerta"]
    clase_posicion := "posicion_columna"
    clase_vacio := "posicion_vacia"
    total_posiciones := 8
    tolerancia_columna_px := 30
    correccion_y_fija_px := 50
    clases_anomalia_lateral := ["error_caido"]
    clase_referencia := "referencia_fija"
    clase_borde_env := "borde_envase"
    clase_mitad_env := "mitad_envase"
    d_real_mm := 100
    offset_cero_px := 40 }

/-- Internal response codes (`CODIGO_OK` / `CODIGO_FALLO_QC` / `CODIGO_PARADA`). -/
def CODIGO_OK : ℕ := 0

def CODIGO_FALLO_QC : ℕ := 1

def CODIGO_PARADA : ℕ := 2

/-! Python `dict` modelled as an insertion-ordered association list:
assignment overwrites in place if the key is present, else appends. -/

/-- `d[k] = v` on a Python dict. -/
def pyDictSet {α β : Type} [BEq α] : List (α × β) → α → β → List (α × β)
  | [], k, v => [(k, v)]
  | (k', v') :: rest, k, v =>
    if k' == k then (k', v) :: rest else (k', v') :: pyDictSet rest k v

/-- `k in d` on a Python dict. -/
def pyDictMem {α β : Type} [BEq α] (m : List (α × β)) (k : α) : Bool :=
  m.any (fun p => p.1 == k)

/-- `d[k]` on a Python dict (`none` when the key is absent). -/
def pyDictGet {α β : Type} [BEq α] (m : List (α × β)) (k : α) : Option β :=
  List.lookup k m

/-! ### Calibration (`calibrar_y`) -/

/-- Calibration state: `X_CENTROS_IDEALES` (dict column-index → ideal pixel X,
inserted in index order 1..N) and the `calibrado_y` flag. -/
structure CalibState where
  x_centros_ideales : List (ℕ × ℤ)
  calibrado_y : Bool
deriving DecidableEq

/-- The detected marker midpoints of a calibration frame: horizontal box
midpoints of detections of class `CLASE_POSICION` or `CLASE_VACIO`,
in detection order. -/
def centros_marcadores (cfg : VisionConfig) (dets : List Detection) : List ℕ :=
  (dets.filter
    (fun d => d.cls == cfg.clase_posicion || d.cls == cfg.clase_vacio)).map x_center

/-- `calibrar_y` on the detections of the calibration frame.  Fewer than two
markers resets the state to invalid-and-empty; otherwise the midpoints are
sorted, the consecutive deltas averaged, and `TOTAL_POSICIONES` ideal centers
are generated from the lowest midpoint in steps of the average delta
(truncated to int as in the source).  The prior state is overwritten
unconditionally in both branches. -/
def calibrar_y (cfg : VisionConfig) (_prior : CalibState)
    (dets : List Detection) : CalibState :=
  let centros_x_detectados := centros_marcadores cfg dets
  if centros_x_detectados.length < 2 then ⟨[], false⟩
  else
    let ordenados := centros_x_detectados.insertionSort (· ≤ ·)
    let deltas := List.zipWith (fun (a b : ℕ) => (b : ℤ) - (a : ℤ)) ordenados ordenados.tail
    let distancia_ideal_px : ℚ := (deltas.sum : ℚ) / (deltas.length : ℚ)
    let primer_centro_ideal : ℚ := (ordenados.headI : ℚ)
    let centros : List (ℕ × ℤ) := (List.range cfg.total_posiciones).map
      (fun i => (i + 1, pyInt (primer_centro_ideal + (i : ℚ) * distancia_ideal_px)))
    ⟨centros, true⟩

/-! ### Top-camera inference (`_ejecutar_inferencia_superior`) -/

/-- Occupancy state of one observed pixel-X column key. -/
inductive Ocupacion where
  | vacio
  | producto
deriving DecidableEq

/-- One iteration of the `detecciones_por_posicion` accumulation loop:
a `CLASE_VACIO` detection assigns its key unconditionally; a
`CLASE_POSICION` detection assigns only when the key is not already
present. -/
def paso_posicion (cfg : VisionConfig) (m : List (ℕ × Ocupacion))
    (d : Detection) : List (ℕ × Ocupacion) :=
  if d.cls == cfg.clase_vacio then pyDictSet m (x_center d) Ocupacion.vacio
  else if d.cls == cfg.clase_posicion then
    if pyDictMem m (x_center d) then m
    else pyDictSet m (x_center d) Ocupacion.producto
  else m

/-- The `detecciones_por_posicion` dict built over the detection list. -/
def detecciones_por_posicion (cfg : VisionConfig)
    (dets : List Detection) : List (ℕ × Ocupacion) :=
  dets.foldl (paso_posicion cfg) []

/-- Walk the sorted key list: count `PRODUCTO` entries and remember the first
(lowest-X) `PRODUCTO` key as the work column. -/
def conteo_y_trabajo (m : List (ℕ × Ocupacion)) : ℕ × Option ℕ :=
  let posiciones_ordenadas := (m.map Prod.fst).insertionSort (· ≤ ·)
  posiciones_ordenadas.foldl
    (fun acc x_pos =>
      match pyDictGet m x_pos with
      | some Ocupacion.producto =>
        (acc.1 + 1, match acc.2 with | none => some x_pos | some t => some t)
      | _ => acc)
    (0, none)

/-- The linear min-distance scan over `X_CENTROS_IDEALES.items()`:
returns the column of the strictly smallest distance seen first,
with that distance (`none` on an empty dict, i.e. `float(inf)` never beaten). -/
def columna_mas_cercana (centros : List (ℕ × ℤ)) (x : ℤ) : Option ℕ × Option ℤ :=
  centros.foldl
    (fun acc p =>
      let dist := |x - p.2|
      match acc.2 with
      | none => (some p.1, some dist)
      | some min_dist => if dist < min_dist then (some p.1, some dist) else acc)
    (none, none)

/-- `_ejecutar_inferencia_superior` (annotated frame omitted): returns
`(response_code, conteo_filas_restantes, correccion_y_pixels)`. -/
def inferencia_superior (cfg : VisionConfig) (calib : CalibState)
    (dets : List Detection) : ℕ × ℕ × ℤ :=
  if calib.calibrado_y = false then (CODIGO_FALLO_QC, 0, 0)
  else
    let has_qc_error :=
      dets.any (fun d => cfg.clases_fallo_superior.contains d.cls)
    let m := detecciones_por_posicion cfg dets
    let ct := conteo_y_trabajo m
    match ct.2 with
    | none =>
      (if has_qc_error then CODIGO_FALLO_QC else CODIGO_OK, ct.1, 0)
    | some posicion_x_trabajo =>
      match columna_mas_cercana calib.x_centros_ideales (posicion_x_trabajo : ℤ) with
      | (some columna_actual_num, some min_dist) =>
        if min_dist > cfg.tolerancia_columna_px then
          let x_ideal := (pyDictGet calib.x_centros_ideales columna_actual_num).getD 0
          let corr := (posicion_x_trabajo : ℤ) - x_ideal
          let corr := max (min corr cfg.correccion_y_fija_px) (-cfg.correccion_y_fija_px)
          (CODIGO_FALLO_QC, ct.1, corr)
        else
          (if has_qc_error then CODIGO_FALLO_QC else CODIGO_OK, ct.1, 0)
      | _ =>
        (CODIGO_FALLO_QC, ct.1, 0)

/-! ### Side-camera inference (`_ejecutar_inferencia_lateral`) -/

/-- `_calcular_correccion_z`: returns `(correccion_cmm, optional error log)`.
Degenerate scale (collapsed `borde`/`mitad` labels, or `D_REAL_MM = 0`)
yields `(0, some log)`. -/
def calcular_correccion_z (cfg : VisionConfig)
    (y_referencia y_borde y_mitad : ℤ) : ℤ × Option String :=
  let delta_p_escala := |y_borde - y_mitad|
  if delta_p_escala = 0 ∨ cfg.d_real_mm = 0 then
    (0, some "No se pudo calcular la escala Z (Etiquetas 'borde' y 'mitad' colapsaron).")
  else
    let factor_escala_px_mm : ℚ := (delta_p_escala : ℚ) / cfg.d_real_mm
    let delta_p_bruto := y_borde - y_referencia
    let delta_p_error := delta_p_bruto - cfg.offset_cero_px
    let correccion_cmm : ℚ := (delta_p_error : ℚ) / factor_escala_px_mm * 10
    (pyRound correccion_cmm, none)

/-- The detection loop of `_ejecutar_inferencia_lateral`: record the first
`y_center` seen for each landmark key of `y_coords`; on a detection whose
class is in `CLASES_ANOMALIA_LATERAL`, set `CODIGO_PARADA` and `break`.
Returns `(response_code, y_coords, log_z)`. -/
def busqueda_lateral (cfg : VisionConfig) :
    List Detection → List (String × Option ℤ) →
    ℕ × List (String × Option ℤ) × String
  | [], m => (CODIGO_OK, m, "")
  | d :: rest, m =>
    let m' :=
      if pyDictMem m d.cls then
        if (pyDictGet m d.cls).getD none = none then
          pyDictSet m d.cls (some (y_center d : ℤ))
        else m
      else m
    if cfg.clases_anomalia_lateral.contains d.cls then
      (CODIGO_PARADA, m', "PARADA CRÍTICA: " ++ d.cls)
    else busqueda_lateral cfg rest m'

/-- `_ejecutar_inferencia_lateral` (annotated frame omitted): returns
`(response_code, correccion_z_cmm, log_final)`.  `alto_frame` is
`frame_lat.shape[0]`; its half is the fallback reference Y. -/
def inferencia_lateral (cfg : VisionConfig) (alto_frame : ℕ)
    (dets : List Detection) : ℕ × ℤ × String :=
  let y_coords : List (String × Option ℤ) :=
    pyDictSet (pyDictSet (pyDictSet [] cfg.clase_referencia (none : Option ℤ))
      cfg.clase_borde_env none) cfg.clase_mitad_env none
  let y_center_ref_fallback : ℤ := (alto_frame / 2 : ℕ)
  let b := busqueda_lateral cfg dets y_coords
  let response_code := b.1
  let m := b.2.1
  let log_parada := b.2.2
  if response_code ≠ CODIGO_PARADA then
    let falta_ref := (pyDictGet m cfg.clase_referencia).getD none = none
    let m' := if falta_ref then
        pyDictSet m cfg.clase_referencia (some y_center_ref_fallback) else m
    let log_z_ref := if falta_ref then "Usando centro imagen (Fallback Z)." else ""
    let res :=
      if m'.all (fun p => pyTruthy p.2) then
        let cz := calcular_correccion_z cfg
          ((pyDictGet m' cfg.clase_referencia).getD none |>.getD 0)
          ((pyDictGet m' cfg.clase_borde_env).getD none |>.getD 0)
          ((pyDictGet m' cfg.clase_mitad_env).getD none |>.getD 0)
        match cz.2 with
        | some log_error => ((0 : ℤ), log_error)
        | none => (cz.1, "Cálculo Z exitoso.")
      else
        (0, "Advertencia: Faltan etiquetas Z (Z=0).")
    (response_code, res.1,
      res.2 ++ (if log_z_ref ≠ "" then " (" ++ log_z_ref ++ ")" else ""))
  else
    (response_code, 0, log_parada)

/-! ### Dual-cycle combination (`procesar_frames_dual`) -/

/-- The result dictionary of `procesar_frames_dual` (annotated frames
omitted). -/
structure ResultadoDual where
  plc_success : Bool
  filas : ℕ
  desviacion_y_mm : ℚ
  correccion_z_cmm : ℤ
  desviacion_y_px : ℤ
  codigo_respuesta_plc : ℕ
  log_z : String
deriving DecidableEq

/-- `procesar_frames_dual`: run the side inference; run the top inference
only when no critical stop is pending (otherwise `conteo = 0`,
`correccion_y_px = 0`, `resp_sup = CODIGO_OK`); combine.  The transmitted
deviation (`desviacion_y_mm` given to `escribir_resultados` by the main
loop) is re-mapped to `correccion_z / 100.0`; the local
`correccion_y_px * mm_per_pixel` value of the source is dead (overwritten
before the dict is built) and carried only as the `desviacion_y_px`
diagnostic. -/
def procesar_frames_dual (cfg : VisionConfig) (calib : CalibState)
    (dets_sup dets_lat : List Detection) (alto_lat : ℕ) : ResultadoDual :=
  let lat := inferencia_lateral cfg alto_lat dets_lat
  let resp_lat_code := lat.1
  let correccion_z := lat.2.1
  let log_z := lat.2.2
  let sup :=
    if resp_lat_code ≠ CODIGO_PARADA then inferencia_superior cfg calib dets_sup
    else (CODIGO_OK, 0, 0)
  let resp_sup_code := sup.1
  let conteo := sup.2.1
  let correccion_y_px := sup.2.2
  let plc_success := resp_lat_code ≠ CODIGO_PARADA
  let filas := conteo
  let codigo_respuesta_plc :=
    if resp_lat_code = CODIGO_PARADA then CODIGO_PARADA
    else if resp_sup_code = CODIGO_FALLO_QC then CODIGO_FALLO_QC
    else CODIGO_OK
  let desviacion_para_plc : ℚ := (correccion_z : ℚ) / 100
  { plc_success := plc_success
    filas := filas
    desviacion_y_mm := desviacion_para_plc
    correccion_z_cmm := correccion_z
    desviacion_y_px := correccion_y_px
    codigo_respuesta_plc := codigo_respuesta_plc
    log_z := log_z }

/-! ### Specification views of the calibration internals -/

/-- The sorted marker midpoints of a calibration frame. -/
def centros_ordenados (cfg : VisionConfig) (dets : List Detection) : List ℕ :=
  (centros_marcadores cfg dets).insertionSort (· ≤ ·)

/-- The average of the pairwise consecutive deltas of the sorted marker
midpoints (the `distancia_ideal_px` of `calibrar_y`). -/
def promedio_deltas (cfg : VisionConfig) (dets : List Detection) : ℚ :=
  let o := centros_ordenados cfg dets
  let deltas := List.zipWith (fun (a b : ℕ) => (b : ℤ) - (a : ℤ)) o o.tail
  (deltas.sum : ℚ) / (deltas.length : ℚ)

/-! ### Helper lemmas -/

lemma pyInt_of_nonneg {q : ℚ} (h : 0 ≤ q) : pyInt q = ⌊q⌋ := by
  simp [pyInt, h]

lemma pyInt_mono {q r : ℚ} (h : q ≤ r) : pyInt q ≤ pyInt r := by
  by_cases hq : 0 ≤ q
  · rw [pyInt_of_nonneg hq, pyInt_of_nonneg (hq.trans h)]
    exact Int.floor_mono h
  · by_cases hr : 0 ≤ r
    · rw [pyInt_of_nonneg hr]
      have h1 : pyInt q = ⌈q⌉ := by simp [pyInt, hq]
      have h2 : ⌈q⌉ ≤ (0 : ℤ) := Int.ceil_le.mpr (by exact_mod_cast le_of_not_le hq)
      have h3 : (0 : ℤ) ≤ ⌊r⌋ := Int.le_floor.mpr (by exact_mod_cast hr)
      omega
    · have h1 : pyInt q = ⌈q⌉ := by simp [pyInt, hq]
      have h2 : pyInt r = ⌈r⌉ := by simp [pyInt, hr]
      rw [h1, h2]
      exact Int.ceil_mono h

lemma pyInt_add_one_le {q r : ℚ} (hq : 0 ≤ q) (h : q + 1 ≤ r) :
    pyInt q + 1 ≤ pyInt r := by
  rw [pyInt_of_nonneg hq, pyInt_of_nonneg (by linarith)]
  have h2 : ⌊q + 1⌋ ≤ ⌊r⌋ := Int.floor_mono h
  have h3 : ⌊q + 1⌋ = ⌊q⌋ + 1 := Int.floor_add_one q
  omega

lemma headI_es_minimo {l : List ℕ} (hs : l.Sorted (· ≤ ·)) :
    ∀ x ∈ l, l.headI ≤ x := by
  cases l with
  | nil => simp
  | cons a t =>
    intro x hx
    rcases List.mem_cons.mp hx with h | h
    · simp [h]
    · exact (List.sorted_cons.mp hs).1 x h

lemma deltas_nonneg {l : List ℕ} (hs : l.Sorted (· ≤ ·)) :
    ∀ d ∈ List.zipWith (fun (a b : ℕ) => (b : ℤ) - (a : ℤ)) l l.tail, 0 ≤ d := by
  induction l with
  | nil => simp
  | cons a t ih =>
    cases t with
    | nil => simp
    | cons b t' =>
      intro d hd
      simp only [List.tail_cons, List.zipWith_cons_cons] at hd
      rcases List.mem_cons.mp hd with h | h
      · have hab : a ≤ b := (List.sorted_cons.mp hs).1 b (by simp)
        subst h
        simp only [sub_nonneg]
        exact_mod_cast hab
      · exact ih (List.sorted_cons.mp hs).2 d (by simpa using h)

lemma suma_deltas : ∀ l : List ℕ,
    (List.zipWith (fun (a b : ℕ) => (b : ℤ) - (a : ℤ)) l l.tail).sum
      = ((l.getLast?.getD 0 : ℕ) : ℤ) - (l.headI : ℤ)
  | [] => by simp
  | [a] => by simp
  | a :: b :: t => by
    have ih := suma_deltas (b :: t)
    simp only [List.tail_cons, List.zipWith_cons_cons, List.sum_cons,
      List.getLast?_cons_cons, List.headI] at ih ⊢
    omega

/-- On at least two markers, `calibrar_y` succeeds and produces the
range-generated list of ideal centers. -/
lemma calibrar_y_exitosa (cfg : VisionConfig) (prior : CalibState)
    (dets : List Detection) (h : 2 ≤ (centros_marcadores cfg dets).length) :
    calibrar_y cfg prior dets =
      ⟨(List.range cfg.total_posiciones).map
        (fun i => (i + 1,
          pyInt (((centros_ordenados cfg dets).headI : ℚ) +
            (i : ℚ) * promedio_deltas cfg dets))),
       true⟩ := by
  have h' : ¬ (centros_marcadores cfg dets).length < 2 := by omega
  simp [calibrar_y, h', centros_ordenados, promedio_deltas]

/-! ## Theorems for the claims -/

/-- C8: `_int32_to_words` clamps its argument to the signed 32-bit range
`[-2147483648, 2147483647]`, reinterprets the clamped value as unsigned
32-bit two's complement (`mod 2^32`), and returns the low 16 bits first and
the high 16 bits second, each word within `[0, 65535]`; an argument beyond
the int32 range yields the encoding of the corresponding boundary value,
never a wrapped-around value. -/
theorem c8_codificacion_int32 (n : ℤ) :
    int32_to_words n =
      [max (-2147483648) (min n 2147483647) % 4294967296 % 65536,
       max (-2147483648) (min n 2147483647) % 4294967296 / 65536 % 65536] ∧
    (∀ w ∈ int32_to_words n, 0 ≤ w ∧ w ≤ 65535) ∧
    (2147483647 < n → int32_to_words n = int32_to_words 2147483647) ∧
    (n < -2147483648 → int32_to_words n = int32_to_words (-2147483648)) := by
  have key : ∀ m : ℤ, int32_to_words m =
      [max (-2147483648) (min m 2147483647) % 4294967296 % 65536,
       max (-2147483648) (min m 2147483647) % 4294967296 / 65536 % 65536] := by
    intro m
    simp only [int32_to_words]
    have h : (if max (-2147483648) (min m 2147483647) < 0
        then max (-2147483648) (min m 2147483647) + 4294967296
        else max (-2147483648) (min m 2147483647))
        = max (-2147483648) (min m 2147483647) % 4294967296 := by
      split <;> omega
    rw [h]
  refine ⟨key n, ?_, ?_, ?_⟩
  · intro w hw
    rw [key n] at hw
    simp only [List.mem_cons, List.not_mem_nil, or_false] at hw
    rcases hw with h | h <;> subst h <;> omega
  · intro hgt
    rw [key n, key 2147483647]
    have h : max (-2147483648) (min n 2147483647) = 2147483647 := by omega
    rw [h]
    norm_num
  · intro hlt
    rw [key n, key (-2147483648)]
    have h : max (-2147483648) (min n 2147483647) = -2147483648 := by omega
    rw [h]
    norm_num

/-- C9 counterexample: with the configuration file missing, construction
does not fail — `_cargar_configuracion` silently returns the built-in
default configuration, including default register addresses and status
codes, contradicting the claim that a missing configuration prevents
startup. -/
theorem c9_contraejemplo_config_faltante :
    cargar_configuracion ConfigFile.missing = Except.ok configuracion_por_defecto ∧
    configuracion_por_defecto.dispositivo_trigger = "D28" ∧
    configuracion_por_defecto.dispositivo_valor = "D29" ∧
    configuracion_por_defecto.dispositivo_filas = "D14" ∧
    configuracion_por_defecto.valor_exito = 88 ∧
    configuracion_por_defecto.valor_error = 77 :=
  ⟨rfl, rfl, rfl, rfl, rfl, rfl⟩

/-- C9 amended: only a present-but-unparseable configuration file makes
construction fail (the JSON decode error propagates); a missing
configuration file does not stop the system — the loader silently
substitutes the built-in default register addresses and status codes. -/
theorem c9_carga_configuracion :
    (∀ c, cargar_configuracion (ConfigFile.valid c) = Except.ok c) ∧
    cargar_configuracion ConfigFile.invalid = Except.error "JSONDecodeError" ∧
    cargar_configuracion ConfigFile.missing = Except.ok configuracion_por_defecto :=
  ⟨fun _ => rfl, rfl, rfl⟩

/-- C10: a call to `escribir_resultados` with success flag `false` schedules,
regardless of the deviation and row-count arguments, exactly the two-word
encoding of 0 to the value register, then 0 to the row-count register, and
only then the configured error code to the trigger register; a failure-free
run performs exactly those writes in that order and returns `true`. -/
theorem c10_error_envia_ceros (ctrl : PLCController) (d : ℚ) (n : ℤ)
    (h : ctrl.is_connected = true) :
    escrituras_programadas ctrl d n false =
      [⟨ctrl.config.dispositivo_valor, [0, 0]⟩,
       ⟨ctrl.config.dispositivo_filas, [0]⟩,
       ⟨ctrl.config.dispositivo_trigger, [ctrl.config.valor_error]⟩] ∧
    int32_to_words 0 = [0, 0] ∧
    escribir_resultados ctrl (fun _ => false) d n false =
      ⟨ctrl, [⟨ctrl.config.dispositivo_valor, [0, 0]⟩,
              ⟨ctrl.config.dispositivo_filas, [0]⟩,
              ⟨ctrl.config.dispositivo_trigger, [ctrl.config.valor_error]⟩], true⟩ := by
  have hz : int32_to_words 0 = [0, 0] := by decide
  refine ⟨?_, hz, ?_⟩
  · simp [escrituras_programadas, hz]
  · simp [escribir_resultados, h, escrituras_programadas, hz, ejecutar_escrituras]

/-- C10 witness: a concrete connected controller with the default
configuration, deviation 3.7 mm and row count 5 — the error path still
writes `[0,0]`, `[0]`, and then `[77]`. -/
theorem c10_testigo :
    escrituras_programadas ⟨configuracion_por_defecto, true⟩ (37/10) 5 false =
      [⟨"D29", [0, 0]⟩, ⟨"D14", [0]⟩, ⟨"D28", [77]⟩] ∧
    escribir_resultados ⟨configuracion_por_defecto, true⟩ (fun _ => false) (37/10) 5 false =
      ⟨⟨configuracion_por_defecto, true⟩,
       [⟨"D29", [0, 0]⟩, ⟨"D14", [0]⟩, ⟨"D28", [77]⟩], true⟩ := by
  have h := c10_error_envia_ceros ⟨configuracion_por_defecto, true⟩ (37/10) 5 rfl
  exact ⟨h.1, h.2.2⟩

/-- C1: a connected `escribir_resultados` call schedules exactly three
sub-writes in the strict order value-register, row-count register,
trigger/status register; the performed writes are the prefix of this
schedule up to the first failing sub-write; if all three succeed the call
returns `true` and stays connected, and if any sub-write fails nothing
after it is performed, the call returns `false`, and the controller
transitions to disconnected — so the trigger register is never written
before the value and row-count data. -/
theorem c1_orden_y_aborto (ctrl : PLCController) (plan : ℕ → Bool) (d : ℚ)
    (n : ℤ) (ex : Bool) (h : ctrl.is_connected = true) :
    (escrituras_programadas ctrl d n ex).map WriteEvent.headdevice =
      [ctrl.config.dispositivo_valor, ctrl.config.dispositivo_filas,
       ctrl.config.dispositivo_trigger] ∧
    (escribir_resultados ctrl plan d n ex).events =
      (escrituras_programadas ctrl d n ex).take
        (if plan 0 then 0 else if plan 1 then 1 else if plan 2 then 2 else 3) ∧
    (plan 0 = false → plan 1 = false → plan 2 = false →
      (escribir_resultados ctrl plan d n ex).ret = true ∧
      (escribir_resultados ctrl plan d n ex).ctrl.is_connected = true) ∧
    ((plan 0 = true ∨ plan 1 = true ∨ plan 2 = true) →
      (escribir_resultados ctrl plan d n ex).ret = false ∧
      (escribir_resultados ctrl plan d n ex).ctrl.is_connected = false) := by
  cases hex : ex <;> cases h0 : plan 0 <;> cases h1 : plan 1 <;> cases h2 : plan 2 <;>
    simp [escribir_resultados, escrituras_programadas, ejecutar_escrituras,
      h, h0, h1, h2]

/-- C1 witness: a concrete connected controller and a plan that makes the
second sub-write (the row-count write) fail: only the value-register write
is observed, the call returns `false`, and the controller is disconnected. -/
theorem c1_testigo :
    (escribir_resultados ⟨configuracion_por_defecto, true⟩
        (fun i => i == 1) (25/10) 3 true).events =
      (escrituras_programadas ⟨configuracion_por_defecto, true⟩ (25/10) 3 true).take 1 ∧
    (escribir_resultados ⟨configuracion_por_defecto, true⟩
        (fun i => i == 1) (25/10) 3 true).ret = false ∧
    (escribir_resultados ⟨configuracion_por_defecto, true⟩
        (fun i => i == 1) (25/10) 3 true).ctrl.is_connected = false := by
  have h := c1_orden_y_aborto ⟨configuracion_por_defecto, true⟩
    (fun i => i == 1) (25/10) 3 true rfl
  refine ⟨?_, (h.2.2.2 (Or.inr (Or.inl rfl))).1, (h.2.2.2 (Or.inr (Or.inl rfl))).2⟩
  simpa using h.2.1

/-- C7 counterexample: `calibrar_y` on a single marker does fail, but it
does not leave the previously held calibration unchanged — the prior valid
calibration is wiped to the empty, invalid state. -/
theorem c7_contraejemplo_calibracion_borrada :
    calibrar_y configVisionPorDefecto ⟨[(1, 100), (2, 150)], true⟩
      [⟨"posicion_columna", 90, 0, 110, 10⟩] = ⟨[], false⟩ ∧
    (⟨[], false⟩ : CalibState) ≠ ⟨[(1, 100), (2, 150)], true⟩ := by
  constructor
  · decide
  · decide

/-- C7 amended: with fewer than 2 marker midpoints, `calibrar_y` fails
(the state is left invalid) and resets the calibration wholesale to the
empty state — the prior calibration is discarded rather than retained; no
partial mixture of old and new state remains. -/
theorem c7_calibracion_insuficiente (cfg : VisionConfig) (prior : CalibState)
    (dets : List Detection) (h : (centros_marcadores cfg dets).length < 2) :
    calibrar_y cfg prior dets = ⟨[], false⟩ := by
  simp [calibrar_y, h]

/-- C7 witness: one marker detection with a previously valid calibration. -/
theorem c7_testigo :
    (centros_marcadores configVisionPorDefecto
      [⟨"posicion_vacia", 10, 0, 30, 10⟩]).length < 2 ∧
    calibrar_y configVisionPorDefecto ⟨[(1, 7)], true⟩
      [⟨"posicion_vacia", 10, 0, 30, 10⟩] = ⟨[], false⟩ :=
  ⟨by decide, c7_calibracion_insuficiente configVisionPorDefecto ⟨[(1, 7)], true⟩
    [⟨"posicion_vacia", 10, 0, 30, 10⟩] (by decide)⟩

/-- The four evenly spaced calibration markers of the worked example:
midpoints at pixel X = 100, 150, 200, 250. -/
def detsCalibracionEjemplo : List Detection :=
  [⟨"posicion_columna", 90, 0, 110, 10⟩, ⟨"posicion_vacia", 140, 0, 160, 10⟩,
   ⟨"posicion_columna", 190, 0, 210, 10⟩, ⟨"posicion_vacia", 240, 0, 260, 10⟩]

/-- C5: with at least 2 marker midpoints, `calibrar_y` succeeds and produces
exactly `TOTAL_POSICIONES` ideal centers, the i-th (1-based) being the
integer truncation of `lowest + (i-1) * average-delta`, where `lowest` is
the smallest observed marker midpoint and the average of the consecutive
deltas of the sorted midpoints telescopes to
`(highest - lowest) / (count - 1)`; in particular four markers at
X = 100, 150, 200, 250 with the default N = 8 give centers
100, 150, ..., 450 for columns 1..8. -/
theorem c5_calibracion (cfg : VisionConfig) (prior : CalibState)
    (dets : List Detection) (h : 2 ≤ (centros_marcadores cfg dets).length) :
    (calibrar_y cfg prior dets).calibrado_y = true ∧
    (calibrar_y cfg prior dets).x_centros_ideales.length = cfg.total_posiciones ∧
    (∀ i, i < cfg.total_posiciones →
      (calibrar_y cfg prior dets).x_centros_ideales[i]? =
        some (i + 1,
          pyInt (((centros_ordenados cfg dets).headI : ℚ) +
            (i : ℚ) * promedio_deltas cfg dets))) ∧
    (centros_ordenados cfg dets).headI ∈ centros_marcadores cfg dets ∧
    (∀ c ∈ centros_marcadores cfg dets, (centros_ordenados cfg dets).headI ≤ c) ∧
    promedio_deltas cfg dets =
      ((((centros_ordenados cfg dets).getLast?.getD 0 : ℕ) : ℚ) -
        ((centros_ordenados cfg dets).headI : ℚ)) /
        (((centros_marcadores cfg dets).length : ℚ) - 1) ∧
    calibrar_y configVisionPorDefecto ⟨[], false⟩ detsCalibracionEjemplo =
      ⟨[(1, 100), (2, 150), (3, 200), (4, 250),
        (5, 300), (6, 350), (7, 400), (8, 450)], true⟩ := by
  have hcal := calibrar_y_exitosa cfg prior dets h
  have hlen_o : (centros_ordenados cfg dets).length =
      (centros_marcadores cfg dets).length :=
    List.length_insertionSort _ _
  have hne : centros_ordenados cfg dets ≠ [] := by
    intro e
    rw [e] at hlen_o
    simp at hlen_o
    omega
  have hsorted : (centros_ordenados cfg dets).Sorted (· ≤ ·) :=
    List.sorted_insertionSort (· ≤ ·) _
  refine ⟨?_, ?_, ?_, ?_, ?_, ?_, ?_⟩
  · rw [hcal]
  · rw [hcal]; simp
  · intro i hi
    rw [hcal]
    simp [hi]
  · have hmem : (centros_ordenados cfg dets).headI ∈ centros_ordenados cfg dets := by
      cases hl : centros_ordenados cfg dets with
      | nil => exact absurd hl hne
      | cons a t => simp
    exact (List.mem_insertionSort (· ≤ ·)).mp hmem
  · intro c hc
    exact headI_es_minimo hsorted c ((List.mem_insertionSort (· ≤ ·)).mpr hc)
  · simp only [promedio_deltas]
    rw [suma_deltas]
    have hlen_z : (List.zipWith (fun (a b : ℕ) => (b : ℤ) - (a : ℤ))
        (centros_ordenados cfg dets) (centros_ordenados cfg dets).tail).length =
        (centros_marcadores cfg dets).length - 1 := by
      rw [List.length_zipWith, List.length_tail, hlen_o]
      omega
    rw [hlen_z]
    have h1 : (((centros_marcadores cfg dets).length - 1 : ℕ) : ℚ) =
        ((centros_marcadores cfg dets).length : ℚ) - 1 := by
      have : 1 ≤ (centros_marcadores cfg dets).length := by omega
      push_cast [this]
      ring
    rw [h1]
    push_cast
    ring
  · have h1 : centros_marcadores configVisionPorDefecto detsCalibracionEjemplo =
        [100, 150, 200, 250] := by decide
    have h2 : List.insertionSort (· ≤ ·) [100, 150, 200, 250] =
        [100, 150, 200, 250] := by decide
    have h3 : configVisionPorDefecto.total_posiciones = 8 := rfl
    simp only [calibrar_y, h1, h2, h3]
    norm_num [pyInt, List.range_succ]

/-- C5 witness: the worked four-marker example satisfies the hypothesis and
the resulting calibration is marked valid. -/
theorem c5_testigo :
    2 ≤ (centros_marcadores configVisionPorDefecto detsCalibracionEjemplo).length ∧
    (calibrar_y configVisionPorDefecto ⟨[], false⟩ detsCalibracionEjemplo).calibrado_y
      = true :=
  ⟨by decide, (c5_calibracion configVisionPorDefecto ⟨[], false⟩
    detsCalibracionEjemplo (by decide)).1⟩

/-- Two distinct detections whose boxes share the midpoint X = 100. -/
def detsMarcadoresCoincidentes : List Detection :=
  [⟨"posicion_columna", 90, 0, 110, 10⟩, ⟨"posicion_columna", 92, 0, 108, 12⟩]

/-- C6 counterexample: two markers at the same midpoint produce a *valid*
calibration whose eight centers are all equal (average spacing 0), so the
ideal centers of a valid calibration are not monotonically increasing for
every marker set. -/
theorem c6_contraejemplo_centros_iguales :
    (calibrar_y configVisionPorDefecto ⟨[], false⟩ detsMarcadoresCoincidentes).calibrado_y
      = true ∧
    (calibrar_y configVisionPorDefecto ⟨[], false⟩
        detsMarcadoresCoincidentes).x_centros_ideales =
      [(1, 100), (2, 100), (3, 100), (4, 100),
       (5, 100), (6, 100), (7, 100), (8, 100)] ∧
    ¬ (calibrar_y configVisionPorDefecto ⟨[], false⟩
        detsMarcadoresCoincidentes).x_centros_ideales.Pairwise
          (fun p q => p.2 < q.2) := by
  have h1 : centros_marcadores configVisionPorDefecto detsMarcadoresCoincidentes =
      [100, 100] := by decide
  have h2 : List.insertionSort (· ≤ ·) [100, 100] = [100, 100] := by decide
  have h3 : configVisionPorDefecto.total_posiciones = 8 := rfl
  have he : calibrar_y configVisionPorDefecto ⟨[], false⟩ detsMarcadoresCoincidentes =
      ⟨[(1, 100), (2, 100), (3, 100), (4, 100),
        (5, 100), (6, 100), (7, 100), (8, 100)], true⟩ := by
    simp only [calibrar_y, h1, h2, h3]
    norm_num [pyInt, List.range_succ]
  refine ⟨by rw [he], by rw [he], by rw [he]; decide⟩

/-- C6 amended: whenever `calibrar_y` succeeds (≥ 2 marker midpoints), the
valid calibration contains exactly N centers keyed 1..N whose pixel values
are monotonically NON-decreasing (each being the truncation of
`lowest + (i-1)·average-spacing`); they are strictly increasing whenever
the average observed spacing is at least one pixel. -/
theorem c6_invariante_calibracion (cfg : VisionConfig) (prior : CalibState)
    (dets : List Detection) (h : 2 ≤ (centros_marcadores cfg dets).length) :
    (calibrar_y cfg prior dets).calibrado_y = true ∧
    (calibrar_y cfg prior dets).x_centros_ideales.length = cfg.total_posiciones ∧
    (calibrar_y cfg prior dets).x_centros_ideales.map Prod.fst =
      (List.range cfg.total_posiciones).map (fun i => i + 1) ∧
    (calibrar_y cfg prior dets).x_centros_ideales.Pairwise
      (fun p q => p.2 ≤ q.2) ∧
    (1 ≤ promedio_deltas cfg dets →
      (calibrar_y cfg prior dets).x_centros_ideales.Pairwise
        (fun p q => p.2 < q.2)) := by
  have hcal := calibrar_y_exitosa cfg prior dets h
  have hsorted : (centros_ordenados cfg dets).Sorted (· ≤ ·) :=
    List.sorted_insertionSort (· ≤ ·) _
  have hd : 0 ≤ promedio_deltas cfg dets := by
    unfold promedio_deltas
    apply div_nonneg
    · have := deltas_nonneg hsorted
      have hs : (0 : ℤ) ≤ (List.zipWith (fun (a b : ℕ) => (b : ℤ) - (a : ℤ))
          (centros_ordenados cfg dets) (centros_ordenados cfg dets).tail).sum :=
        List.sum_nonneg this
      exact_mod_cast hs
    · exact_mod_cast Nat.zero_le _
  have hc : (0 : ℚ) ≤ ((centros_ordenados cfg dets).headI : ℚ) := Nat.cast_nonneg _
  have hrange : (List.range cfg.total_posiciones).Pairwise (· < ·) :=
    List.pairwise_lt_range cfg.total_posiciones
  refine ⟨?_, ?_, ?_, ?_, ?_⟩
  · rw [hcal]
  · rw [hcal]; simp
  · rw [hcal]
    simp
  · rw [hcal]
    simp only [List.pairwise_map]
    refine hrange.imp ?_
    intro i j hij
    apply pyInt_mono
    have hij' : (i : ℚ) ≤ (j : ℚ) := by exact_mod_cast le_of_lt hij
    nlinarith
  · intro h1
    rw [hcal]
    simp only [List.pairwise_map]
    refine hrange.imp ?_
    intro i j hij
    have hij' : (i : ℚ) + 1 ≤ (j : ℚ) := by exact_mod_cast hij
    have harg : (0 : ℚ) ≤ ((centros_ordenados cfg dets).headI : ℚ) +
        (i : ℚ) * promedio_deltas cfg dets := by
      have : (0 : ℚ) ≤ (i : ℚ) * promedio_deltas cfg dets :=
        mul_nonneg (Nat.cast_nonneg _) hd
      linarith
    have hstep : ((centros_ordenados cfg dets).headI : ℚ) +
        (i : ℚ) * promedio_deltas cfg dets + 1 ≤
        ((centros_ordenados cfg dets).headI : ℚ) +
        (j : ℚ) * promedio_deltas cfg dets := by
      nlinarith
    have := pyInt_add_one_le harg hstep
    omega

/-- C6 witness: the worked four-marker example has average spacing 50 ≥ 1,
and its valid calibration has pairwise strictly increasing centers. -/
theorem c6_testigo :
    2 ≤ (centros_marcadores configVisionPorDefecto detsCalibracionEjemplo).length ∧
    ((calibrar_y configVisionPorDefecto ⟨[], false⟩
        detsCalibracionEjemplo).x_centros_ideales.Pairwise
      (fun p q => p.2 ≤ q.2)) :=
  ⟨by decide, (c6_invariante_calibracion configVisionPorDefecto ⟨[], false⟩
    detsCalibracionEjemplo (by decide)).2.2.2.1⟩

/-! ### Python-dict lemmas -/

lemma pyDictGet_cons {α β : Type} [BEq α] (a k : α) (b : β) (rest : List (α × β)) :
    pyDictGet ((a, b) :: rest) k =
      if k == a then some b else pyDictGet rest k := by
  simp only [pyDictGet, List.lookup]
  cases k == a <;> simp

lemma pyDictGet_set_self {α β : Type} [BEq α] [LawfulBEq α]
    (m : List (α × β)) (k : α) (v : β) :
    pyDictGet (pyDictSet m k v) k = some v := by
  induction m with
  | nil => simp [pyDictSet, pyDictGet_cons]
  | cons p rest ih =>
    obtain ⟨a, b⟩ := p
    simp only [pyDictSet]
    by_cases ha : a = k
    · subst ha
      rw [if_pos (by simp)]
      simp [pyDictGet_cons]
    · rw [if_neg (by simpa using ha)]
      rw [pyDictGet_cons, if_neg (by simpa using Ne.symm ha)]
      exact ih

lemma pyDictGet_set_other {α β : Type} [BEq α] [LawfulBEq α]
    (m : List (α × β)) (k k' : α) (v : β) (h : k ≠ k') :
    pyDictGet (pyDictSet m k v) k' = pyDictGet m k' := by
  induction m with
  | nil =>
    simp only [pyDictSet]
    rw [pyDictGet_cons, if_neg (by simpa using Ne.symm h)]
  | cons p rest ih =>
    obtain ⟨a, b⟩ := p
    simp only [pyDictSet]
    by_cases ha : a = k
    · subst ha
      rw [if_pos (by simp)]
      rw [pyDictGet_cons, pyDictGet_cons]
      rw [if_neg (by simpa using Ne.symm h), if_neg (by simpa using Ne.symm h)]
    · rw [if_neg (by simpa using ha)]
      rw [pyDictGet_cons, pyDictGet_cons]
      by_cases ha' : k' = a
      · rw [if_pos (by simpa using ha'), if_pos (by simpa using ha')]
      · rw [if_neg (by simpa using ha'), if_neg (by simpa using ha')]
        exact ih

lemma pyDictMem_of_get {α β : Type} [BEq α] [LawfulBEq α]
    (m : List (α × β)) (k : α) (v : β) (h : pyDictGet m k = some v) :
    pyDictMem m k = true := by
  induction m with
  | nil => simp [pyDictGet, List.lookup] at h
  | cons p rest ih =>
    obtain ⟨a, b⟩ := p
    by_cases ha : k = a
    · simp [pyDictMem, ha]
    · rw [pyDictGet_cons, if_neg (by simpa using ha)] at h
      have := ih h
      simp only [pyDictMem, List.any_cons] at this ⊢
      simp [this]

/-- An `EMPTY` entry of the occupancy dict is never overwritten by a later
detection: `VACIO` rewrites with `VACIO`, and `PRODUCTO` only writes absent
keys. -/
lemma vacio_estable (cfg : VisionConfig) (d : Detection)
    (m : List (ℕ × Ocupacion)) (x : ℕ)
    (h : pyDictGet m x = some Ocupacion.vacio) :
    pyDictGet (paso_posicion cfg m d) x = some Ocupacion.vacio := by
  unfold paso_posicion
  split
  · by_cases hx : x_center d = x
    · rw [hx]
      exact pyDictGet_set_self m x Ocupacion.vacio
    · rw [pyDictGet_set_other m _ x _ hx]
      exact h
  · split
    · split
      · exact h
      · next hm =>
        have hx : x_center d ≠ x := by
          intro e
          rw [e] at hm
          exact hm (pyDictMem_of_get m x Ocupacion.vacio h)
        rw [pyDictGet_set_other m _ x _ hx]
        exact h
    · exact h

lemma vacio_persistente (cfg : VisionConfig) (x : ℕ) :
    ∀ (l : List Detection) (m : List (ℕ × Ocupacion)),
      pyDictGet m x = some Ocupacion.vacio →
      pyDictGet (l.foldl (paso_posicion cfg) m) x = some Ocupacion.vacio
  | [], _, h => h
  | d :: rest, m, h =>
    vacio_persistente cfg x rest (paso_posicion cfg m d) (vacio_estable cfg d m x h)

/-- C4 counterexample: an occupied-slot marker processed first *is*
overwritten by a later empty-slot marker at the same pixel-X — the final
occupancy at X = 100 is `VACIO`, not the first-written `PRODUCTO`. -/
theorem c4_contraejemplo_vacio_sobrescribe :
    detecciones_por_posicion configVisionPorDefecto
      [⟨"posicion_columna", 90, 0, 110, 10⟩] = [(100, Ocupacion.producto)] ∧
    detecciones_por_posicion configVisionPorDefecto
      [⟨"posicion_columna", 90, 0, 110, 10⟩, ⟨"posicion_vacia", 95, 0, 105, 10⟩]
      = [(100, Ocupacion.vacio)] := by
  exact ⟨by decide, by decide⟩

/-- C4 amended: when an empty-slot marker lands at a pixel-X, the EMPTY
state wins at that key regardless of detection order: an empty-slot
detection overwrites any existing entry at its pixel-key, while an
occupied-slot detection is kept only when the key is absent — so any key
with at least one empty-slot detection ends as `VACIO`. -/
theorem c4_prioridad_vacio (cfg : VisionConfig) (dets : List Detection) (x : ℕ)
    (h : ∃ d ∈ dets, d.cls = cfg.clase_vacio ∧ x_center d = x) :
    pyDictGet (detecciones_por_posicion cfg dets) x = some Ocupacion.vacio := by
  suffices H : ∀ (l : List Detection) (m : List (ℕ × Ocupacion)),
      (∃ d ∈ l, d.cls = cfg.clase_vacio ∧ x_center d = x) →
      pyDictGet (l.foldl (paso_posicion cfg) m) x = some Ocupacion.vacio by
    exact H dets [] h
  intro l
  induction l with
  | nil =>
    rintro m ⟨d, hd, -⟩
    simp at hd
  | cons d rest ih =>
    rintro m ⟨e, he, hcls, hx⟩
    rcases List.mem_cons.mp he with rfl | hmem
    · have hstep : pyDictGet (paso_posicion cfg m e) x = some Ocupacion.vacio := by
        unfold paso_posicion
        rw [if_pos (by simp [hcls]), hx]
        exact pyDictGet_set_self m x Ocupacion.vacio
      simpa [List.foldl_cons] using
        vacio_persistente cfg x rest (paso_posicion cfg m e) hstep
    · simpa [List.foldl_cons] using
        ih (paso_posicion cfg m d) ⟨e, hmem, hcls, hx⟩

/-- C4 witness: occupied then empty at the same pixel-X = 100 — the final
entry is `VACIO`. -/
theorem c4_testigo :
    (∃ d ∈ [(⟨"posicion_columna", 90, 0, 110, 10⟩ : Detection),
            ⟨"posicion_vacia", 95, 0, 105, 10⟩],
       d.cls = configVisionPorDefecto.clase_vacio ∧ x_center d = 100) ∧
    pyDictGet (detecciones_por_posicion configVisionPorDefecto
      [⟨"posicion_columna", 90, 0, 110, 10⟩, ⟨"posicion_vacia", 95, 0, 105, 10⟩]) 100
      = some Ocupacion.vacio :=
  ⟨by decide,
   c4_prioridad_vacio configVisionPorDefecto
     [⟨"posicion_columna", 90, 0, 110, 10⟩, ⟨"posicion_vacia", 95, 0, 105, 10⟩]
     100 (by decide)⟩

/-! ### Safety-stop lemmas for the side camera -/

/-- Any detection of a configured anomaly class in the list makes the
side-camera detection loop finish with `CODIGO_PARADA`. -/
lemma busqueda_detecta_parada (cfg : VisionConfig) :
    ∀ (dets : List Detection) (m : List (String × Option ℤ)),
      (∃ d ∈ dets, cfg.clases_anomalia_lateral.contains d.cls = true) →
      (busqueda_lateral cfg dets m).1 = CODIGO_PARADA
  | [], _, h => by
    rcases h with ⟨d, hd, -⟩
    simp at hd
  | d :: rest, m, h => by
    by_cases hc : cfg.clases_anomalia_lateral.contains d.cls = true
    · have hmem : d.cls ∈ cfg.clases_anomalia_lateral := by simpa using hc
      simp [busqueda_lateral, hmem]
    · rcases h with ⟨e, he, hce⟩
      rcases List.mem_cons.mp he with rfl | hmem
      · exact absurd hce hc
      · have hc' : cfg.clases_anomalia_lateral.contains d.cls = false := by
          simpa using hc
        simp only [busqueda_lateral, hc', Bool.false_eq_true, if_false]
        exact busqueda_detecta_parada cfg rest _ ⟨e, hmem, hce⟩

/-- With a pending stop, `_ejecutar_inferencia_lateral` returns
`CODIGO_PARADA` and depth correction 0 (the Z computation is skipped). -/
lemma lateral_parada (cfg : VisionConfig) (alto : ℕ) (dets : List Detection)
    (h : ∃ d ∈ dets, cfg.clases_anomalia_lateral.contains d.cls = true) :
    (inferencia_lateral cfg alto dets).1 = CODIGO_PARADA ∧
    (inferencia_lateral cfg alto dets).2.1 = 0 := by
  have hb := busqueda_detecta_parada cfg dets
    (pyDictSet (pyDictSet (pyDictSet [] cfg.clase_referencia (none : Option ℤ))
      cfg.clase_borde_env none) cfg.clase_mitad_env none) h
  simp [inferencia_lateral, hb]

/-- C2: any side-camera detection of a configured safety-anomaly class makes
the dual cycle end in `CODIGO_PARADA` with depth correction 0, success flag
`false`, row count 0 and transmitted deviation 0, with zero lateral
correction; and the whole result is independent of the top-camera detection
set — the top inference contributes nothing to the cycle. -/
theorem c2_parada_seguridad (cfg : VisionConfig) (calib : CalibState)
    (dets_sup dets_sup2 dets_lat : List Detection) (alto : ℕ)
    (h : ∃ d ∈ dets_lat, cfg.clases_anomalia_lateral.contains d.cls = true) :
    (procesar_frames_dual cfg calib dets_sup dets_lat alto).codigo_respuesta_plc
      = CODIGO_PARADA ∧
    (procesar_frames_dual cfg calib dets_sup dets_lat alto).plc_success = false ∧
    (procesar_frames_dual cfg calib dets_sup dets_lat alto).filas = 0 ∧
    (procesar_frames_dual cfg calib dets_sup dets_lat alto).desviacion_y_mm = 0 ∧
    (procesar_frames_dual cfg calib dets_sup dets_lat alto).correccion_z_cmm = 0 ∧
    (procesar_frames_dual cfg calib dets_sup dets_lat alto).desviacion_y_px = 0 ∧
    procesar_frames_dual cfg calib dets_sup2 dets_lat alto =
      procesar_frames_dual cfg calib dets_sup dets_lat alto := by
  obtain ⟨h1, h2⟩ := lateral_parada cfg alto dets_lat h
  refine ⟨?_, ?_, ?_, ?_, ?_, ?_, ?_⟩ <;>
    simp [procesar_frames_dual, h1, h2]

/-- C2 witness: a fallen-part anomaly on the side camera, with two different
top-camera detection sets giving the same stopped result. -/
theorem c2_testigo :
    (∃ d ∈ [(⟨"error_caido", 0, 0, 5, 5⟩ : Detection)],
       configVisionPorDefecto.clases_anomalia_lateral.contains d.cls = true) ∧
    (procesar_frames_dual configVisionPorDefecto ⟨[], false⟩ []
      [⟨"error_caido", 0, 0, 5, 5⟩] 480).plc_success = false ∧
    procesar_frames_dual configVisionPorDefecto ⟨[], false⟩
        [⟨"posicion_columna", 90, 0, 110, 10⟩] [⟨"error_caido", 0, 0, 5, 5⟩] 480 =
      procesar_frames_dual configVisionPorDefecto ⟨[], false⟩ []
        [⟨"error_caido", 0, 0, 5, 5⟩] 480 := by
  have h := c2_parada_seguridad configVisionPorDefecto ⟨[], false⟩ []
    [⟨"posicion_columna", 90, 0, 110, 10⟩] [⟨"error_caido", 0, 0, 5, 5⟩] 480
    (by decide)
  exact ⟨by decide, h.2.1, h.2.2.2.2.2.2⟩

/-- C3: in every dual cycle the deviation handed to the protocol layer
(`desviacion_y_mm`, the value `main` passes to `escribir_resultados`) equals
the side camera's depth correction in centi-millimetres divided by 100 —
it never depends on the top camera at all — while the top camera's lateral
pixel correction is carried only in the separate `desviacion_y_px`
diagnostic field. -/
theorem c3_desviacion_transmitida (cfg : VisionConfig) (calib : CalibState)
    (dets_sup dets_sup2 dets_lat : List Detection) (alto : ℕ) :
    (procesar_frames_dual cfg calib dets_sup dets_lat alto).desviacion_y_mm =
      ((procesar_frames_dual cfg calib dets_sup dets_lat alto).correccion_z_cmm : ℚ)
        / 100 ∧
    (procesar_frames_dual cfg calib dets_sup dets_lat alto).correccion_z_cmm =
      (inferencia_lateral cfg alto dets_lat).2.1 ∧
    (procesar_frames_dual cfg calib dets_sup dets_lat alto).desviacion_y_mm =
      (procesar_frames_dual cfg calib dets_sup2 dets_lat alto).desviacion_y_mm ∧
    (procesar_frames_dual cfg calib dets_sup dets_lat alto).desviacion_y_px =
      (if (inferencia_lateral cfg alto dets_lat).1 ≠ CODIGO_PARADA
       then (inferencia_superior cfg calib dets_sup).2.2 else 0) := by
  refine ⟨?_, ?_, ?_, ?_⟩
  · simp [procesar_frames_dual]
  · simp [procesar_frames_dual]
  · simp [procesar_frames_dual]
  · simp [procesar_frames_dual]
    split <;> simp

end ControlRobot
